import Mathlib

/-!
Shallow embedding of the Slack reminder app (`src/app.py`) and proofs about
its specification claims.

Dates are modelled as integers (days); `datetime.now().date()` becomes an
explicit `today : Int` argument.  Slack Block Kit payloads are modelled by the
`Block` inductive below, keeping exactly the fields the rendering logic
produces (block kind, text, accessory, action buttons).  The SQLAlchemy store
is a record of lists (`DB`); SQL queries become list filters, the LEFT JOIN in
`get_sorted_events` becomes a per-event first-match lookup (sound under the
table's unique constraint on (channel_id, event_id)), and `ORDER BY` becomes a
sort by the same lexicographic key.
-/

namespace ReminderApp

/-- `Event` row (`class Event(db.Model)` in app.py). -/
structure Event where
  id : Nat
  title : String
  event_type : String
  event_date : Int
  registration_deadline : Int
deriving Repr, DecidableEq

/-- `Subscription` row (`class Subscription(db.Model)`).  `status` is nullable. -/
structure Subscription where
  id : Nat
  channel_id : String
  event_id : Nat
  status : Option String
deriving Repr, DecidableEq

/-- The persistent store: the tables of app.py plus the two environment-backed
configuration values the handlers read (`ROOT_ADMIN_ID`, and the
`consultant_channel` row of `AppConfig`). -/
structure DB where
  root_admin : Option String
  event_types : List String
  events : List Event
  subs : List Subscription
  admins : List String
  consultant_channel : Option String
deriving Repr, DecidableEq

/-- `is_user_admin`: root identity from the environment OR present in the
`AppAdmin` table. -/
def is_user_admin (user_id : String) (db : DB) : Bool :=
  db.root_admin = some user_id || db.admins.contains user_id

/-- The LEFT JOIN condition of `get_sorted_events`: the subscription of
`channel_id` for event `eid`, if any (first match; unique by constraint). -/
def findSub (channel_id : String) (eid : Nat) (db : DB) : Option Subscription :=
  db.subs.find? (fun s => s.channel_id = channel_id && s.event_id = eid)

/-- A joined row `(Event, Subscription-or-null)` as returned by the query. -/
abbrev Row := Event × Option Subscription

/-- Sort rank of `Subscription.id.is_(None)`: subscribed rows (`False`) sort
before unsubscribed rows (`True`). -/
def rowRank (r : Row) : Nat := if r.2.isSome then 0 else 1

/-- The `ORDER BY ((Subscription.id.is_(None)), Event.event_date)` key as a
binary relation on joined rows. -/
def rowLe (a b : Row) : Prop :=
  rowRank a < rowRank b ∨ (rowRank a = rowRank b ∧ a.1.event_date ≤ b.1.event_date)

instance : DecidableRel rowLe := fun a b => by
  unfold rowLe; exact inferInstance

instance : IsTotal Row rowLe := by
  constructor
  intro a b
  unfold rowLe
  rcases Nat.lt_trichotomy (rowRank a) (rowRank b) with h | h | h
  · exact Or.inl (Or.inl h)
  · rcases Int.le_total a.1.event_date b.1.event_date with hd | hd
    · exact Or.inl (Or.inr ⟨h, hd⟩)
    · exact Or.inr (Or.inr ⟨h.symm, hd⟩)
  · exact Or.inr (Or.inl h)

instance : IsTrans Row rowLe := by
  constructor
  intro a b c hab hbc
  unfold rowLe at *
  rcases hab with h1 | ⟨h1, d1⟩ <;> rcases hbc with h2 | ⟨h2, d2⟩
  · exact Or.inl (Nat.lt_trans h1 h2)
  · exact Or.inl (h2 ▸ h1)
  · exact Or.inl (h1 ▸ h2)
  · exact Or.inr ⟨h1.trans h2, d1.trans d2⟩

/-- The WHERE clauses of `get_sorted_events`: `registration_deadline >= today`
(applied unconditionally, before the optional category filter), then
`event_type == category` when a category is supplied. -/
def filteredEvents (category : Option String) (db : DB) (today : Int) : List Event :=
  let filtered := db.events.filter (fun e : Event => decide (today ≤ e.registration_deadline))
  match category with
  | some c => filtered.filter (fun e : Event => e.event_type = c)
  | none => filtered

/-- The LEFT JOIN of `get_sorted_events`: each filtered event paired with the
viewer's subscription for it, if any. -/
def joinedRows (channel_id : String) (category : Option String)
    (db : DB) (today : Int) : List Row :=
  (filteredEvents category db today).map (fun e => (e, findSub channel_id e.id db))

/-- `get_sorted_events(channel_id, category=None)`: LEFT JOIN events with the
viewer's subscriptions, filter `registration_deadline >= today`
(unconditionally, before the optional category filter), optionally filter by
category, sort by (subscribed-first, event_date), and return the event list
plus the `{event_id: subscription}` map (as an association list). -/
def get_sorted_events (channel_id : String) (category : Option String)
    (db : DB) (today : Int) : List Event × List (Nat × Subscription) :=
  let sorted := List.insertionSort rowLe (joinedRows channel_id category db today)
  (sorted.map (fun r => r.1), sorted.filterMap (fun r => r.2.map (fun s => (r.1.id, s))))

/-- Dictionary lookup `subs[event.id] if event.id in subs.keys() else None`. -/
def lookupSub (subs : List (Nat × Subscription)) (eid : Nat) : Option Subscription :=
  (subs.find? (fun p => p.1 = eid)).map (fun p => p.2)

/-- An interactive button element. -/
structure Button where
  text : String
  value : String
  action_id : String
deriving Repr, DecidableEq

/-- A `section` block accessory.  The only accessory the app attaches is the
admin overflow menu; options are (label, value) pairs. -/
inductive Accessory where
  | overflow (action_id : String) (options : List (String × String))
deriving Repr, DecidableEq

/-- One Slack Block Kit block, restricted to the shapes app.py emits. -/
inductive Block where
  | header (text : String)
  | sec (text : String) (accessory : Option Accessory)
  | divider
  | context (text : String)
  | actions (elements : List Button)
deriving Repr, DecidableEq

/-- Stand-in for `strftime('%Y-%m-%d')` on the integer date model. -/
def formatDate (d : Int) : String := toString d

/-- The text of an event panel:
`f"*{event.title}*\n📅 {date_str} | ⏰ 데드라인: {deadline_str}"`. -/
def eventText (event : Event) : String :=
  "*" ++ event.title ++ "*\n📅 " ++ formatDate event.event_date ++
    " | ⏰ 데드라인: " ++ formatDate event.registration_deadline

/-- The admin overflow accessory of `build_event_block`. -/
def adminOverflow (event : Event) : Accessory :=
  Accessory.overflow "event_actions"
    [("✏️ Edit", "edit|" ++ toString event.id),
     ("🗑️ Delete", "delete|" ++ toString event.id)]

/-- `build_event_block(event, subscription, is_admin)`: the main section block
(with the overflow accessory iff admin), followed by a status block when the
viewer is subscribed: a confirm-registration button if `status == "Pending"`,
a context note if `status == "Registered"`. -/
def build_event_block (event : Event) (subscription : Option Subscription)
    (admin : Bool) : List Block :=
  let main_block := Block.sec (eventText event)
    (if admin then some (adminOverflow event) else none)
  let statusBlocks := match subscription with
    | none => []
    | some sub =>
      if sub.status = some "Pending" then
        [Block.actions [⟨"등록 확인", toString event.id, "confirm_registration"⟩]]
      else if sub.status = some "Registered" then
        [Block.context "등록 완료"]
      else []
  main_block :: statusBlocks

/-- The three fixed intro blocks of the Home dashboard. -/
def dashboardHeader : List Block :=
  [Block.header "📅 시험/EC 날짜 확인",
   Block.sec ("👋 이 앱은 시험(SAT, AP 등) 및 교내외 활동 일정을 관리해줍니다.\n\n📌 *사용 방법:*\n"
     ++ "• 관심 있는 이벤트의 *알림 구독* 버튼을 눌러주세요.\n"
     ++ "• 구독하시면 *마감일 및 행사 당일 3일 전부터* 매일 아침 DM으로 알림을 보내드립니다.\n"
     ++ "• 놓치기 쉬운 등록 마감일(Deadline)과 시험 당일을 잊지 마세요!") none,
   Block.divider]

/-- The three admin-controls blocks prepended for operators. -/
def adminControls : List Block :=
  [Block.sec "⚙️ *Admin Controls*" none,
   Block.actions
     [⟨"+ Event", "", "open_add_event_modal"⟩,
      ⟨"+ Category", "", "open_add_type_modal"⟩,
      ⟨"Subscribe Channel", "", "open_admin_sub_modal"⟩,
      ⟨"Register Channel", "", "open_admin_register_modal"⟩,
      ⟨"Manage Admins", "", "open_manage_admins_modal"⟩],
   Block.divider]

/-- The blocks present before the per-category content. -/
def dashboardBase (admin : Bool) : List Block :=
  dashboardHeader ++ (if admin then adminControls else [])

/-- `items_per_cat` of `get_dashboard_view`:
`min(math.floor((remaining_blocks - (num_cats * 2)) / num_cats), 10)` then
`max(·, 0)`.  `math.floor` of the true quotient is integer floor division
(`Int.fdiv`). -/
def items_per_cat (remaining num_cats : Int) : Int :=
  max (min (Int.fdiv (remaining - num_cats * 2) num_cats) 10) 0

/-- The per-category section of the dashboard: category header, then either a
"no events" context block or the displayed event blocks, then a "view all"
button iff the category holds more events than were displayed. -/
def category_blocks (cat : String) (admin : Bool) (items : Nat)
    (db : DB) (today : Int) : List Block :=
  let res := get_sorted_events "" (some cat) db today
  let events := res.1
  let subs := res.2
  let display_events := events.take items
  [Block.sec ("📂 *" ++ cat ++ "*") none] ++
  (if display_events.isEmpty then [Block.context "이벤트 없음"]
   else display_events.flatMap (fun e => build_event_block e (lookupSub subs e.id) admin)) ++
  (if display_events.length < events.length then
    [Block.actions [⟨"모든 " ++ cat ++ " 보기 (" ++ toString events.length ++ ")",
                    cat, "nav_view_category"⟩]]
   else [])

/-- `get_dashboard_view(user_id)`: intro blocks (+ admin controls), then the
content budget computation, then one `category_blocks` group per category. -/
def get_dashboard_view (user_id : String) (db : DB) (today : Int) : List Block :=
  let admin := is_user_admin user_id db
  let base := dashboardBase admin
  let remaining_blocks : Int := 100 - base.length
  let num_cats := db.event_types.length
  if num_cats = 0 then base ++ [Block.sec "No categories defined." none]
  else
    let items := (items_per_cat remaining_blocks num_cats).toNat
    base ++ db.event_types.flatMap (fun cat => category_blocks cat admin items db today)

/-- The "previous" button of the category view pagination. -/
def prevButton (category : String) (page : Nat) : Button :=
  ⟨"뒤로", category ++ "|" ++ toString (page - 1), "nav_prev_page"⟩

/-- The "next" button of the category view pagination. -/
def nextButton (category : String) (page : Nat) : Button :=
  ⟨"다음", category ++ "|" ++ toString (page + 1), "nav_next_page"⟩

/-- `get_category_view(user_id, category, page)`: fixed page size 20,
`total_pages = ceil(count / 20)`, slice `events[20·page : 20·page + 20]`,
back-navigation header, one event block group + divider per event in the
slice, then a pagination actions block holding "previous" (iff `page > 0`)
and "next" (iff `page < total_pages - 1`), omitted when both are absent. -/
def get_category_view (user_id category : String) (page : Nat)
    (db : DB) (today : Int) : List Block :=
  let admin := is_user_admin user_id db
  let res := get_sorted_events "" (some category) db today
  let events := res.1
  let subs := res.2
  let total_pages := (events.length + 19) / 20
  let current_slice := (events.drop (20 * page)).take 20
  let base := [Block.header ("📂 " ++ category ++ " Events"),
               Block.actions [⟨"« 홈페이지로", "", "nav_home"⟩],
               Block.divider]
  let eventBlocks := current_slice.flatMap
    (fun e => build_event_block e (lookupSub subs e.id) admin ++ [Block.divider])
  let pagination := (if 0 < page then [prevButton category page] else []) ++
                    (if page + 1 < total_pages then [nextButton category page] else [])
  base ++ eventBlocks ++ (if pagination.isEmpty then [] else [Block.actions pagination])

/-- Auto-increment surrogate key for a new Subscription row. -/
def nextSubId (db : DB) : Nat := (db.subs.foldl (fun m s => max m s.id) 0) + 1

/-- Matching predicate of `filter_by(channel_id=user_id, event_id=event_id)`. -/
def subMatches (user_id : String) (event_id : Nat) (s : Subscription) : Bool :=
  s.channel_id = user_id && s.event_id = event_id

/-- `handle_toggle` (`toggle_subscription` action): on `"sub"`, insert a
Pending subscription only when none exists; otherwise delete all matching
rows. -/
def toggle_subscription (user_id : String) (event_id : Nat) (act : String)
    (db : DB) : DB :=
  if act = "sub" then
    if (db.subs.find? (subMatches user_id event_id)).isSome then db
    else { db with subs := db.subs ++ [⟨nextSubId db, user_id, event_id, some "Pending"⟩] }
  else
    { db with subs := db.subs.filter (fun s => !(subMatches user_id event_id s)) }

/-- The `delete` branch of `handle_event_overflow`: delete all Subscription
rows of the event, then the Event row itself. -/
def delete_event (event_id : Nat) (db : DB) : DB :=
  { db with
    subs := db.subs.filter (fun s => !(s.event_id = event_id : Bool)),
    events := db.events.filter (fun e => !(e.id = event_id : Bool)) }

/-- The store update of `handle_registration_confirm` on the subscription
list: `.first()` row matching (channel_id, event_id); if found and its status
is `"Pending"`, set it to `"Registered"`; otherwise change nothing. -/
def confirmSubs (user_id : String) (event_id : Nat) : List Subscription → List Subscription
  | [] => []
  | s :: rest =>
    if subMatches user_id event_id s then
      if s.status = some "Pending" then { s with status := some "Registered" } :: rest
      else s :: rest
    else s :: confirmSubs user_id event_id rest

/-- `handle_registration_confirm` (`confirm_registration` action), restricted
to its effect on the store. -/
def confirm_registration (user_id : String) (event_id : Nat) (db : DB) : DB :=
  { db with subs := confirmSubs user_id event_id db.subs }

/-- Python's `str.split(None, 1)` helper: drop leading whitespace. -/
def dropWs : List Char → List Char
  | [] => []
  | c :: cs => if c.isWhitespace then dropWs cs else c :: cs

/-- Python's `str.split(None, 1)` helper: split off the first token. -/
def takeTok : List Char → List Char × List Char
  | [] => ([], [])
  | c :: cs =>
    if c.isWhitespace then ([], c :: cs)
    else
      let p := takeTok cs
      (c :: p.1, p.2)

/-- ASCII lowercase of one character (`str.lower` on the ASCII range). -/
def lowerChar (c : Char) : Char :=
  if 'A' ≤ c && c ≤ 'Z' then Char.ofNat (c.toNat + 32) else c

/-- ASCII lowercase of a string (`token_type.lower()`). -/
def lowerStr (s : String) : String := String.mk (s.data.map lowerChar)

/-- `auth_header.split(maxsplit=1)`: at most two pieces, split at the first
whitespace run, leading whitespace ignored, empty remainder dropped. -/
def pySplitMax1 (s : String) : List String :=
  match dropWs s.data with
  | [] => []
  | cs =>
    let p := takeTok cs
    let rest := dropWs p.2
    if rest.isEmpty then [String.mk p.1] else [String.mk p.1, String.mk rest]

/-- The authorization check of `trigger_reminders`: header and secret must be
present and non-empty, the header must split into exactly a token type and a
token, the type must be `bearer` case-insensitively, and the token must equal
the secret (`secrets.compare_digest`, modelled as equality). -/
def check_auth (auth_header cron_secret : Option String) : Bool :=
  match auth_header, cron_secret with
  | some h, some s =>
    if h.isEmpty || s.isEmpty then false
    else match pySplitMax1 h with
      | [token_type, received_token] => lowerStr token_type = "bearer" && received_token = s
      | _ => false
  | _, _ => false

/-- Python attribute access for the string columns of a `Subscription` row;
`none` models `AttributeError`.  The model has exactly the columns of the
table: `channel_id` is the only plain string column — in particular there is
no `user_slack_id` attribute (that column belongs to `AppAdmin`). -/
def Subscription.strAttr (s : Subscription) (attr : String) : Option String :=
  if attr = "channel_id" then some s.channel_id else none

/-- One fan-out step of `notify`: `chat_postMessage(channel=sub.user_slack_id, ...)`.
Evaluating the `channel` argument raises `AttributeError` when the attribute
is absent; on success the destination channel is returned. -/
def sendDM (sub : Subscription) : Except String String :=
  match sub.strAttr "user_slack_id" with
  | some dest => Except.ok dest
  | none => Except.error "AttributeError: user_slack_id"

/-- The `except` handler of `notify` logs
`f"Fail DM {sub.user_slack_id}"` — which evaluates the same missing attribute
and therefore itself raises out of the handler. -/
def logSendFailure (sub : Subscription) : Except String Unit :=
  match sub.strAttr "user_slack_id" with
  | some _ => Except.ok ()
  | none => Except.error "AttributeError: user_slack_id"

/-- The per-subscriber loop of `notify`: count successful sends and log the
destinations; a failure inside the `try` falls to the handler, and an
exception escaping the handler aborts the whole loop. -/
def notifyGo : List Subscription → Nat → List String → Except String Nat × List String
  | [], cnt, sent => (Except.ok cnt, sent)
  | sub :: rest, cnt, sent =>
    match sendDM sub with
    | Except.ok dest => notifyGo rest (cnt + 1) (sent ++ [dest])
    | Except.error e =>
      match logSendFailure sub with
      | Except.ok _ => notifyGo rest cnt sent
      | Except.error _ => (Except.error e, sent)

/-- `notify(evt, msg)`: fan out to every Subscription row of the event,
returning the success count and the channels actually posted to. -/
def notify (db : DB) (evt : Event) (_msg : String) : Except String Nat × List String :=
  notifyGo (db.subs.filter (fun s => s.event_id = evt.id)) 0 []

/-- The deadline-warning message text. -/
def deadlineMsg (event : Event) (time_str : String) : String :=
  "⚠️ *" ++ event.event_type ++ "* *" ++ event.title ++ "* 가입 데드라인이 *" ++
    time_str ++ "* 닫힙니다 (" ++ formatDate event.registration_deadline ++ ")!"

/-- The event-day message text. -/
def eventDayMsg (event : Event) (time_str : String) : String :=
  "📅 *이벤트 알림:* *" ++ event.event_type ++ "* *" ++ event.title ++ "*이 *" ++
    time_str ++ "* 입니다 (" ++ formatDate event.event_date ++ ")!"

/-- The lead-time label: `"오늘"`, `"내일"`, or `f"{days_left}일 후"`. -/
def timeStr (days_left : Nat) : String :=
  if days_left = 0 then "오늘" else if days_left = 1 then "내일"
  else toString days_left ++ "일 후"

/-- Fan out over a list of matching events, accumulating the running total and
the send log; an escaped exception aborts. -/
def notifyEvents (db : DB) (mkMsg : Event → String) :
    List Event → Nat → List String → Except String Nat × List String
  | [], total, sent => (Except.ok total, sent)
  | e :: rest, total, sent =>
    match notify db e (mkMsg e) with
    | (Except.ok n, l) => notifyEvents db mkMsg rest (total + n) (sent ++ l)
    | (Except.error err, l) => (Except.error err, sent ++ l)

/-- The `for days_left in [0, 1, 2, 3]` loop: for each lead time, notify the
subscribers of events whose registration deadline is on the target day, then
of events taking place on the target day. -/
def runDays (db : DB) (today : Int) :
    List Nat → Nat → List String → Except String Nat × List String
  | [], total, sent => (Except.ok total, sent)
  | d :: rest, total, sent =>
    let target := today + (d : Int)
    let ts := timeStr d
    let deadline_events := db.events.filter (fun e => e.registration_deadline = target)
    match notifyEvents db (fun e => deadlineMsg e ts) deadline_events total sent with
    | (Except.ok t1, s1) =>
      let day_events := db.events.filter (fun e => e.event_date = target)
      match notifyEvents db (fun e => eventDayMsg e ts) day_events t1 s1 with
      | (Except.ok t2, s2) => runDays db today rest t2 s2
      | er => er
    | er => er

/-- The body of the outer `try` of `trigger_reminders`: the reminder scan over
lead times {0,1,2,3}, then the consultant morning briefing (posted to the
configured channel when one is set; its own failures are only logged).
Returns the `reminders_sent` total (briefing not counted) and the list of
channels posted to. -/
def run_reminder_cycle (db : DB) (today : Int) : Except String Nat × List String :=
  match runDays db today [0, 1, 2, 3] 0 [] with
  | (Except.ok total, sent) =>
    let sent := match db.consultant_channel with
      | some ch => sent ++ [ch]
      | none => sent
    (Except.ok total, sent)
  | er => er

/-- HTTP outcome of the `/api/run-reminders` endpoint. -/
inductive TriggerResult where
  | unauthorized
  | serverError (msg : String)
  | success (reminders_sent : Nat)
deriving Repr, DecidableEq

/-- `trigger_reminders`: reject with 401 before any domain logic unless the
bearer token authorizes the call; then run the reminder cycle, mapping an
escaped exception to a 500.  The second component records every channel a
message was posted to. -/
def trigger_reminders (auth_header cron_secret : Option String)
    (db : DB) (today : Int) : TriggerResult × List String :=
  if check_auth auth_header cron_secret then
    match run_reminder_cycle db today with
    | (Except.ok n, sent) => (TriggerResult.success n, sent)
    | (Except.error e, sent) => (TriggerResult.serverError e, sent)
  else (TriggerResult.unauthorized, [])

/-- Does the viewer hold a Subscription row for this event?  (The primary sort
key of `get_sorted_events`.) -/
def subscribed (channel_id : String) (db : DB) (e : Event) : Bool :=
  (findSub channel_id e.id db).isSome

/-- Number of Subscription rows of one (subscriber, event) pair;  the
table-level unique constraint `_user_event_uc` makes this at most 1. -/
def pairCount (user_id : String) (event_id : Nat) (db : DB) : Nat :=
  (db.subs.filter (subMatches user_id event_id)).length

/-- Does a block list carry any interactive element (a section accessory or an
actions block)? -/
def hasControl (blocks : List Block) : Bool :=
  blocks.any fun b => match b with
    | Block.sec _ (some _) => true
    | Block.actions _ => true
    | _ => false

/-- Text and accessory of the leading section block, if any. -/
def headSection : List Block → Option (String × Option Accessory)
  | Block.sec t a :: _ => some (t, a)
  | _ => none

/-- The texts of all section blocks, in order.  In a category view these are
exactly the event panels (the fixed chrome uses header/actions/divider/context
blocks only). -/
def sectionTexts (blocks : List Block) : List String :=
  blocks.filterMap fun b => match b with
    | Block.sec t _ => some t
    | _ => none

/-- The action ids of all pagination buttons occurring in the block list. -/
def navButtons (blocks : List Block) : List String :=
  blocks.flatMap fun b => match b with
    | Block.actions bs => bs.filterMap (fun btn =>
        if btn.action_id = "nav_prev_page" || btn.action_id = "nav_next_page"
        then some btn.action_id else none)
    | _ => []

/-- Is this block a pagination control (an actions block holding a
previous/next button)? -/
def isPageNav (b : Block) : Bool :=
  match b with
  | Block.actions bs =>
    bs.any (fun btn => btn.action_id = "nav_prev_page" || btn.action_id = "nav_next_page")
  | _ => false

/-! Concrete stores used by counterexamples and witnesses. -/

/-- 33 categories, each holding one event with a live deadline: enough to
clamp `items_per_cat` to 0 while every category still renders header,
"no events" note and "view all" button. -/
def dbManyCats : DB :=
  ⟨some "ROOT", (List.range 33).map (fun i => "c" ++ toString i),
   (List.range 33).map (fun i => ⟨i, "e", "c" ++ toString i, 0, 0⟩), [], [], none⟩

/-- One event whose registration deadline is tomorrow, with two Pending
subscribers — the input of claim C2's first scenario. -/
def dbReminder : DB :=
  ⟨some "ROOT", ["SAT"], [⟨1, "SAT Dec", "SAT", 40, 1⟩],
   [⟨1, "A", 1, some "Pending"⟩, ⟨2, "B", 1, some "Pending"⟩], [], none⟩

/-- The same event with a deadline ten days out — claim C2's second scenario. -/
def dbReminderFar : DB :=
  ⟨some "ROOT", ["SAT"], [⟨1, "SAT Dec", "SAT", 40, 10⟩],
   [⟨1, "A", 1, some "Pending"⟩, ⟨2, "B", 1, some "Pending"⟩], [], none⟩

/-- An event whose registration deadline has already passed. -/
def pastEvent : Event := ⟨1, "Past SAT", "SAT", 5, -1⟩

/-- A store holding only `pastEvent`. -/
def dbPast : DB := ⟨some "ROOT", ["SAT"], [pastEvent], [], [], none⟩

/-- A small generic store: two live events in one category, one Pending
subscriber on event 1. -/
def dbSmall : DB :=
  ⟨some "ROOT", ["SAT"], [⟨1, "SAT Dec", "SAT", 40, 30⟩, ⟨2, "SAT Mar", "SAT", 50, 45⟩],
   [⟨1, "A", 1, some "Pending"⟩], [], none⟩

/-- A store with subscriptions on two different events, for the
cascade-delete witness. -/
def dbCascade : DB :=
  ⟨some "ROOT", ["SAT"], [⟨1, "SAT Dec", "SAT", 40, 30⟩, ⟨2, "SAT Mar", "SAT", 50, 45⟩],
   [⟨1, "A", 1, some "Pending"⟩, ⟨2, "A", 2, some "Pending"⟩], [], none⟩

/-- The surviving subscription of `dbCascade` after deleting event 1. -/
def subB : Subscription := ⟨2, "A", 2, some "Pending"⟩

/-- An event panel input for the interactive-control counterexample. -/
def plainEvent : Event := ⟨7, "AP Bio", "AP", 12, 9⟩

/-! ## Theorems -/

/-- Claim C1, counterexample: the dashboard's total panel count is NOT always
at most 100.  With 33 categories each holding one live event,
`items_per_cat` clamps to 0, yet every category still emits a header, a
"no events" note and a "view all" button — 102 blocks in total. -/
theorem dashboard_exceeds_hard_limit_counterexample :
    100 < (get_dashboard_view "u" dbManyCats 0).length := by decide

/-- Claim C2, evaluation at the failing input: with an event whose
registration deadline is `today + 1` and two Pending subscribers, the cycle
does not send 2 notifications and return 2 — it aborts with an
`AttributeError` (the fan-out reads `sub.user_slack_id`, a column that exists
on `AppAdmin` but not on `Subscription`, and the `except` handler re-reads the
same attribute while formatting its log line), so nothing is sent and the
endpoint answers 500.  With the deadline at `today + 10` no event matches any
lead time and the run succeeds with 0 sends. -/
theorem reminder_cycle_crashes_on_fanout :
    run_reminder_cycle dbReminder 0 = (Except.error "AttributeError: user_slack_id", []) ∧
    trigger_reminders (some "Bearer s3c") (some "s3c") dbReminder 0 =
      (TriggerResult.serverError "AttributeError: user_slack_id", []) ∧
    run_reminder_cycle dbReminderFar 0 = (Except.ok 0, []) := ⟨by rfl, by rfl, by rfl⟩

/-- Claim C5, counterexample: `get_sorted_events` applies the
`registration_deadline >= today` filter unconditionally, so a category-less
(admin) call does NOT include past-deadline events: `pastEvent` is in the
store, its deadline is before today (0), yet the category-less result omits
it. -/
theorem unscoped_query_drops_past_event_counterexample :
    pastEvent ∈ dbPast.events ∧ pastEvent.registration_deadline < 0 ∧
    (get_sorted_events "U1" none dbPast 0).1 = [] := by decide

/-- Claim C7, counterexample: for a non-operator viewer who is not subscribed,
`build_event_block` emits a lone section block with no accessory — there is no
subscribe/unsubscribe toggle affordance (nor any other interactive control) on
the panel. -/
theorem ordinary_viewer_panel_has_no_control_counterexample :
    build_event_block plainEvent none false = [Block.sec (eventText plainEvent) none] ∧
    hasControl (build_event_block plainEvent none false) = false := by decide

/-- Claim C4: any reminder-trigger request whose Authorization header is
missing, empty, malformed (not `<type> <token>` with type `bearer`
case-insensitively) or whose token differs from the configured secret is
answered with the unauthorized response, and no reminder scan runs: no message
is posted to any channel (the send log is empty). -/
theorem trigger_rejects_bad_auth (h s : Option String) (db : DB) (today : Int)
    (hbad : h = none ∨ h = some "" ∨
      ∀ hv ty tok, h = some hv → pySplitMax1 hv = [ty, tok] →
        lowerStr ty ≠ "bearer" ∨ s ≠ some tok) :
    trigger_reminders h s db today = (TriggerResult.unauthorized, []) := by
  have hfalse : check_auth h s = false := by
    rcases hbad with rfl | rfl | hb
    · rfl
    · cases s <;> rfl
    · unfold check_auth
      cases h with
      | none => rfl
      | some hv =>
        cases s with
        | none => rfl
        | some sv =>
          by_cases hemp : hv.isEmpty || sv.isEmpty
          · simp [hemp]
          · simp only [hemp, Bool.false_eq_true, if_false]
            rcases hps : pySplitMax1 hv with _ | ⟨a, _ | ⟨b, _ | _⟩⟩
            · rfl
            · rfl
            · rcases hb hv a b rfl hps with hty | htok
              · simp [hty]
              · have : b ≠ sv := fun hbs => htok (by rw [hbs])
                simp [this]
            · rfl
  simp [trigger_reminders, hfalse]

/-- Witness for C4 at a concrete unauthorized input (missing header). -/
theorem trigger_rejects_bad_auth_witness :
    trigger_reminders none (some "s3c") dbSmall 0 = (TriggerResult.unauthorized, []) :=
  trigger_rejects_bad_auth none (some "s3c") dbSmall 0 (Or.inl rfl)

/-- Claim C8: the operator delete-event action removes the Event row and every
Subscription row referencing it — afterwards no subscription with the deleted
id is queryable — and it preserves the referential-integrity invariant that
every Subscription.event_id points at a live Event. -/
theorem delete_event_cascades (event_id : Nat) (db : DB) :
    (∀ s ∈ (delete_event event_id db).subs, s.event_id ≠ event_id) ∧
    ((∀ s ∈ db.subs, ∃ e ∈ db.events, e.id = s.event_id) →
      ∀ s ∈ (delete_event event_id db).subs,
        ∃ e ∈ (delete_event event_id db).events, e.id = s.event_id) := by
  constructor
  · intro s hs
    have := List.of_mem_filter hs
    simpa using this
  · intro hinv s hs
    have hmem : s ∈ db.subs := List.mem_of_mem_filter hs
    have hne : s.event_id ≠ event_id := by
      have := List.of_mem_filter hs
      simpa using this
    obtain ⟨e, he, heid⟩ := hinv s hmem
    refine ⟨e, ?_, heid⟩
    simp only [delete_event, List.mem_filter]
    exact ⟨he, by simp [heid, hne]⟩

/-- Witness for C8: deleting event 1 of `dbCascade` leaves only `subB`, which
does not reference event 1 and still points at a live event. -/
theorem delete_event_cascades_witness :
    subB.event_id ≠ 1 ∧ ∃ e ∈ (delete_event 1 dbCascade).events, e.id = subB.event_id :=
  ⟨(delete_event_cascades 1 dbCascade).1 subB (by decide),
   (delete_event_cascades 1 dbCascade).2 (by decide) subB (by decide)⟩

/-- Subscribing is a no-op when a matching row already exists. -/
theorem toggle_sub_noop (u : String) (eid : Nat) (db : DB)
    (hfind : (db.subs.find? (subMatches u eid)).isSome) :
    toggle_subscription u eid "sub" db = db := by
  unfold toggle_subscription
  rw [if_pos rfl, if_pos hfind]

/-- Claim C9: under the table's uniqueness invariant (at most one Subscription
row per (subscriber, event) pair), subscribing twice in a row leaves exactly
one row for the pair, and the second subscribe is a no-op on the store. -/
theorem subscribe_idempotent (u : String) (eid : Nat) (db : DB)
    (huniq : pairCount u eid db ≤ 1) :
    pairCount u eid
      (toggle_subscription u eid "sub" (toggle_subscription u eid "sub" db)) = 1 ∧
    toggle_subscription u eid "sub" (toggle_subscription u eid "sub" db) =
      toggle_subscription u eid "sub" db := by
  by_cases hfind : (db.subs.find? (subMatches u eid)).isSome
  · have hdb1 : toggle_subscription u eid "sub" db = db := toggle_sub_noop u eid db hfind
    have hcnt : pairCount u eid db = 1 := by
      obtain ⟨x, hx, hpx⟩ := List.find?_isSome.mp hfind
      have : x ∈ db.subs.filter (subMatches u eid) := List.mem_filter.mpr ⟨hx, hpx⟩
      have hpos : 0 < pairCount u eid db := by
        unfold pairCount
        exact List.length_pos.mpr (fun hnil => by simp [hnil] at this)
      omega
    rw [hdb1, hdb1]
    exact ⟨hcnt, rfl⟩
  · have hnone : db.subs.find? (subMatches u eid) = none :=
      Option.not_isSome_iff_eq_none.mp hfind
    have hnomatch : ∀ x ∈ db.subs, ¬ subMatches u eid x = true :=
      List.find?_eq_none.mp hnone
    have hnew : subMatches u eid ⟨nextSubId db, u, eid, some "Pending"⟩ = true := by
      simp [subMatches]
    have hdb1 : toggle_subscription u eid "sub" db =
        { db with subs := db.subs ++ [⟨nextSubId db, u, eid, some "Pending"⟩] } := by
      unfold toggle_subscription
      rw [if_pos rfl, if_neg hfind]
    have hfilter : db.subs.filter (subMatches u eid) = [] :=
      List.filter_eq_nil_iff.mpr hnomatch
    have hcnt1 : pairCount u eid (toggle_subscription u eid "sub" db) = 1 := by
      rw [hdb1]
      unfold pairCount
      simp [List.filter_append, hfilter, hnew]
    have hfind1 : ((toggle_subscription u eid "sub" db).subs.find?
        (subMatches u eid)).isSome := by
      rw [hdb1]
      refine List.find?_isSome.mpr ⟨⟨nextSubId db, u, eid, some "Pending"⟩, ?_, hnew⟩
      simp
    have hdb2 : toggle_subscription u eid "sub" (toggle_subscription u eid "sub" db) =
        toggle_subscription u eid "sub" db :=
      toggle_sub_noop u eid (toggle_subscription u eid "sub" db) hfind1
    rw [hdb2]
    exact ⟨hcnt1, rfl⟩

/-- Witness for C9: user "B" is not subscribed to event 1 in `dbSmall`;
subscribing twice yields exactly one row. -/
theorem subscribe_idempotent_witness :
    pairCount "B" 1
      (toggle_subscription "B" 1 "sub" (toggle_subscription "B" 1 "sub" dbSmall)) = 1 ∧
    toggle_subscription "B" 1 "sub" (toggle_subscription "B" 1 "sub" dbSmall) =
      toggle_subscription "B" 1 "sub" dbSmall :=
  subscribe_idempotent "B" 1 dbSmall (by decide)

/-- `confirmSubs` changes nothing when no matching row is Pending. -/
theorem confirmSubs_id (u : String) (eid : Nat) :
    ∀ l : List Subscription,
      (∀ s ∈ l, subMatches u eid s = true → s.status ≠ some "Pending") →
      confirmSubs u eid l = l := by
  intro l h
  induction l with
  | nil => rfl
  | cons a t ih =>
    unfold confirmSubs
    by_cases hm : subMatches u eid a = true
    · rw [if_pos hm, if_neg (h a (by simp) hm)]
    · rw [if_neg hm, ih (fun s hs => h s (by simp [hs]))]

/-- `confirmSubs` updates exactly the unique matching Pending row. -/
theorem confirmSubs_update (u : String) (eid : Nat) :
    ∀ (l1 : List Subscription) (s : Subscription) (l2 : List Subscription),
      ((l1 ++ s :: l2).filter (subMatches u eid)).length ≤ 1 →
      subMatches u eid s = true → s.status = some "Pending" →
      confirmSubs u eid (l1 ++ s :: l2) =
        l1 ++ { s with status := some "Registered" } :: l2 := by
  intro l1
  induction l1 with
  | nil =>
    intro s l2 _ hm hp
    simp only [List.nil_append]
    unfold confirmSubs
    rw [if_pos hm, if_pos hp]
  | cons a t ih =>
    intro s l2 hlen hm hp
    have hma : ¬ subMatches u eid a = true := by
      intro ha
      have h2 : 2 ≤ (((a :: (t ++ s :: l2)).filter (subMatches u eid))).length := by
        simp only [List.filter_cons, List.filter_append, ha, if_pos, List.length_cons,
          List.length_append, hm]
        omega
      simp only [List.cons_append] at hlen
      omega
    simp only [List.cons_append]
    unfold confirmSubs
    rw [if_neg hma]
    have hlen2 : ((t ++ s :: l2).filter (subMatches u eid)).length ≤ 1 := by
      simp only [List.cons_append, List.filter_cons] at hlen
      rw [if_neg hma] at hlen
      exact hlen
    rw [ih s l2 hlen2 hm hp]

/-- Claim C10: under the uniqueness invariant, `confirm_registration` mutates
the store only when the acting user's Subscription row for the event exists
with status "Pending"; in that case exactly that row's status becomes
"Registered" and every other row and field is untouched; when no such row
exists (or it is already Registered), the store is returned unchanged. -/
theorem confirm_registration_frame (u : String) (eid : Nat) (db : DB)
    (huniq : pairCount u eid db ≤ 1) :
    ((∀ s ∈ db.subs, subMatches u eid s = true → s.status ≠ some "Pending") →
      confirm_registration u eid db = db) ∧
    (∀ l1 s l2, db.subs = l1 ++ s :: l2 → subMatches u eid s = true →
      s.status = some "Pending" →
      confirm_registration u eid db =
        { db with subs := l1 ++ { s with status := some "Registered" } :: l2 }) := by
  constructor
  · intro h
    unfold confirm_registration
    rw [confirmSubs_id u eid db.subs h]
  · intro l1 s l2 hsplit hm hp
    unfold confirm_registration
    have huniq2 : ((l1 ++ s :: l2).filter (subMatches u eid)).length ≤ 1 := by
      unfold pairCount at huniq
      rw [hsplit] at huniq
      exact huniq
    rw [hsplit, confirmSubs_update u eid l1 s l2 huniq2 hm hp]

/-- Witness for C10: in `dbSmall`, user "A" has the unique Pending row for
event 1; confirming flips exactly that row to Registered. -/
theorem confirm_registration_frame_witness :
    confirm_registration "A" 1 dbSmall =
      { dbSmall with subs := [] ++ (⟨1, "A", 1, some "Registered"⟩ : Subscription) :: [] } :=
  (confirm_registration_frame "A" 1 dbSmall (by decide)).2
    [] ⟨1, "A", 1, some "Pending"⟩ [] (by rfl) (by decide) rfl

/-- Membership in the WHERE-filtered event list. -/
theorem mem_filteredEvents (cat : Option String) (db : DB) (today : Int) (e : Event) :
    e ∈ filteredEvents cat db today ↔
      e ∈ db.events ∧ today ≤ e.registration_deadline ∧
        ∀ c, cat = some c → e.event_type = c := by
  cases cat with
  | none => simp [filteredEvents, List.mem_filter]
  | some c =>
    simp only [filteredEvents, List.mem_filter, decide_eq_true_eq]
    constructor
    · rintro ⟨⟨he, hd⟩, ht⟩
      exact ⟨he, hd, fun c' hc' => by cases hc'; exact ht⟩
    · rintro ⟨he, hd, ht⟩
      exact ⟨⟨he, hd⟩, ht c rfl⟩

/-- The sorted event list is a permutation of the filtered event list. -/
theorem sorted_events_fst_perm (ch : String) (cat : Option String)
    (db : DB) (today : Int) :
    (get_sorted_events ch cat db today).1.Perm (filteredEvents cat db today) := by
  unfold get_sorted_events
  have h1 := (List.perm_insertionSort rowLe (joinedRows ch cat db today)).map
    (fun r : Row => r.1)
  refine h1.trans ?_
  simp [joinedRows, List.map_map, Function.comp_def]

/-- Claim C5, amended: `get_sorted_events` applies the past-deadline filter in
every call — with or without a category argument, the returned list holds
exactly the stored events whose registration deadline is on/after today (and
of the requested category, when one is supplied); category-less (admin) calls
exclude past-deadline events just the same. -/
theorem sorted_events_mem_iff (ch : String) (cat : Option String)
    (db : DB) (today : Int) (e : Event) :
    e ∈ (get_sorted_events ch cat db today).1 ↔
      e ∈ db.events ∧ today ≤ e.registration_deadline ∧
        ∀ c, cat = some c → e.event_type = c := by
  rw [(sorted_events_fst_perm ch cat db today).mem_iff]
  exact mem_filteredEvents cat db today e

/-- Witness for C5's amended claim: `pastEvent` is excluded from the
category-less call exactly because its deadline is past. -/
theorem sorted_events_mem_iff_witness :
    pastEvent ∈ (get_sorted_events "U1" none dbPast 0).1 ↔
      pastEvent ∈ dbPast.events ∧ (0 : Int) ≤ pastEvent.registration_deadline ∧
        ∀ c, (none : Option String) = some c → pastEvent.event_type = c :=
  sorted_events_mem_iff "U1" none dbPast 0 pastEvent

/-- Claim C6: in every `get_sorted_events` result, each event the viewer is
subscribed to precedes each event they are not subscribed to, and within each
of the two groups the events appear in ascending `event_date` order. -/
theorem sorted_events_ordering (ch : String) (cat : Option String)
    (db : DB) (today : Int) :
    ((get_sorted_events ch cat db today).1).Pairwise (fun a b =>
      (subscribed ch db b = true → subscribed ch db a = true) ∧
      (subscribed ch db a = subscribed ch db b → a.event_date ≤ b.event_date)) := by
  unfold get_sorted_events
  simp only []
  rw [List.pairwise_map]
  have hs : (List.insertionSort rowLe (joinedRows ch cat db today)).Pairwise rowLe :=
    List.sorted_insertionSort rowLe _
  have hmem : ∀ r ∈ List.insertionSort rowLe (joinedRows ch cat db today),
      r.2 = findSub ch r.1.id db := by
    intro r hr
    have hr2 : r ∈ joinedRows ch cat db today :=
      (List.perm_insertionSort rowLe _).subset hr
    simp only [joinedRows, List.mem_map] at hr2
    obtain ⟨e, _, rfl⟩ := hr2
    rfl
  refine List.Pairwise.imp_of_mem ?_ hs
  intro a b ha hb hab
  have ha2 : subscribed ch db a.1 = a.2.isSome := by
    unfold subscribed; rw [hmem a ha]
  have hb2 : subscribed ch db b.1 = b.2.isSome := by
    unfold subscribed; rw [hmem b hb]
  rcases hab with hlt | ⟨heq, hdate⟩
  · have hA : a.2.isSome = true ∧ b.2.isSome = false := by
      unfold rowRank at hlt
      by_cases h1 : a.2.isSome <;> by_cases h2 : b.2.isSome <;>
        simp [h1, h2] at hlt ⊢
    constructor
    · intro hsb
      rw [hb2, hA.2] at hsb
      exact absurd hsb (by simp)
    · intro hss
      rw [ha2, hb2, hA.1, hA.2] at hss
      exact absurd hss (by simp)
  · have hiso : a.2.isSome = b.2.isSome := by
      unfold rowRank at heq
      by_cases h1 : a.2.isSome <;> by_cases h2 : b.2.isSome <;>
        simp [h1, h2] at heq ⊢
    exact ⟨fun hsb => by rw [ha2, hiso, ← hb2]; exact hsb, fun _ => hdate⟩

/-- Witness for C6 at a concrete store: the pairwise ordering holds for the
two-event result of `dbSmall` as seen by subscriber "A". -/
theorem sorted_events_ordering_witness :
    ((get_sorted_events "A" none dbSmall 0).1).Pairwise (fun a b =>
      (subscribed "A" dbSmall b = true → subscribed "A" dbSmall a = true) ∧
      (subscribed "A" dbSmall a = subscribed "A" dbSmall b →
        a.event_date ≤ b.event_date)) :=
  sorted_events_ordering "A" none dbSmall 0

/-- Claim C7, amended: every event panel's main section carries the title,
the formatted event date and the formatted registration deadline.  For an
operator the section carries the overflow menu with the edit and delete
options; for a non-operator the section has no accessory, and the only
interactive element the panel can carry is the confirm-registration button,
present exactly when the viewer is subscribed with status Pending — there is
no subscribe/unsubscribe toggle affordance. -/
theorem event_block_contents (e : Event) (sub : Option Subscription) (adm : Bool) :
    ∃ txt acc, headSection (build_event_block e sub adm) = some (txt, acc) ∧
      (∃ a b, txt = a ++ (e.title ++ b)) ∧
      (∃ a b, txt = a ++ (formatDate e.event_date ++ b)) ∧
      (∃ a b, txt = a ++ (formatDate e.registration_deadline ++ b)) ∧
      (adm = true → acc = some (adminOverflow e)) ∧
      (adm = false → acc = none ∧
        (hasControl (build_event_block e sub adm) = true ↔
          ∃ s, sub = some s ∧ s.status = some "Pending")) := by
  refine ⟨eventText e, if adm then some (adminOverflow e) else none, ?_, ?_, ?_, ?_, ?_, ?_⟩
  · cases sub with
    | none => cases adm <;> rfl
    | some s => cases adm <;> rfl
  · exact ⟨"*", "*\n📅 " ++ formatDate e.event_date ++ " | ⏰ 데드라인: " ++
      formatDate e.registration_deadline, by simp [eventText, String.append_assoc]⟩
  · exact ⟨"*" ++ e.title ++ "*\n📅 ", " | ⏰ 데드라인: " ++
      formatDate e.registration_deadline, by simp [eventText, String.append_assoc]⟩
  · exact ⟨"*" ++ e.title ++ "*\n📅 " ++ formatDate e.event_date ++ " | ⏰ 데드라인: ", "",
      by simp [eventText, String.append_assoc, String.append_empty]⟩
  · intro h; rw [h]; rfl
  · intro h; subst h
    refine ⟨rfl, ?_⟩
    cases sub with
    | none => simp [build_event_block, hasControl]
    | some s =>
      by_cases hp : s.status = some "Pending"
      · simp [build_event_block, hasControl, hp]
      · by_cases hr : s.status = some "Registered"
        · simp [build_event_block, hasControl, hp, hr]
        · simp [build_event_block, hasControl, hp, hr]

/-- Witness for C7's amended claim at a concrete panel: a non-operator viewer
subscribed with status Pending. -/
theorem event_block_contents_witness :
    ∃ txt acc, headSection
        (build_event_block plainEvent (some ⟨1, "A", 7, some "Pending"⟩) false) =
        some (txt, acc) ∧
      (∃ a b, txt = a ++ (plainEvent.title ++ b)) ∧
      (∃ a b, txt = a ++ (formatDate plainEvent.event_date ++ b)) ∧
      (∃ a b, txt = a ++ (formatDate plainEvent.registration_deadline ++ b)) ∧
      (false = true → acc = some (adminOverflow plainEvent)) ∧
      (false = false → acc = none ∧
        (hasControl (build_event_block plainEvent
            (some ⟨1, "A", 7, some "Pending"⟩) false) = true ↔
          ∃ s, (some ⟨1, "A", 7, some "Pending"⟩ : Option Subscription) = some s ∧
            s.status = some "Pending")) :=
  event_block_contents plainEvent (some ⟨1, "A", 7, some "Pending"⟩) false

/-- `filterMap` distributes over `flatMap`. -/
theorem filterMap_flatMap_eq {α β γ : Type} (l : List α) (f : α → List β)
    (g : β → Option γ) :
    (l.flatMap f).filterMap g = l.flatMap (fun a => (f a).filterMap g) := by
  induction l with
  | nil => rfl
  | cons a t ih => simp [List.flatMap_cons, List.filterMap_append, ih]

/-- `filter` distributes over `flatMap`. -/
theorem filter_flatMap_eq {α β : Type} (l : List α) (f : α → List β) (p : β → Bool) :
    (l.flatMap f).filter p = l.flatMap (fun a => (f a).filter p) := by
  induction l with
  | nil => rfl
  | cons a t ih => simp [List.flatMap_cons, List.filter_append, ih]

/-- An event block group contributes exactly its main text to `sectionTexts`. -/
theorem sectionTexts_event_block (e : Event) (sub : Option Subscription) (adm : Bool) :
    sectionTexts (build_event_block e sub adm ++ [Block.divider]) = [eventText e] := by
  cases sub with
  | none => cases adm <;> rfl
  | some s =>
    cases adm <;> by_cases hp : s.status = some "Pending" <;>
      by_cases hr : s.status = some "Registered" <;>
      simp [build_event_block, sectionTexts, hp, hr]

/-- An event block group holds no pagination button. -/
theorem navButtons_event_block (e : Event) (sub : Option Subscription) (adm : Bool) :
    navButtons (build_event_block e sub adm ++ [Block.divider]) = [] := by
  cases sub with
  | none => cases adm <;> rfl
  | some s =>
    cases adm <;> by_cases hp : s.status = some "Pending" <;>
      by_cases hr : s.status = some "Registered" <;>
      simp [build_event_block, navButtons, hp, hr]

/-- An event block group holds no pagination actions block. -/
theorem filter_isPageNav_event_block (e : Event) (sub : Option Subscription) (adm : Bool) :
    (build_event_block e sub adm ++ [Block.divider]).filter isPageNav = [] := by
  cases sub with
  | none => cases adm <;> rfl
  | some s =>
    cases adm <;> by_cases hp : s.status = some "Pending" <;>
      by_cases hr : s.status = some "Registered" <;>
      simp [build_event_block, isPageNav, hp, hr]

/-- The rendered category view, written as its three segments. -/
theorem category_view_eq (u cat : String) (page : Nat) (db : DB) (today : Int) :
    get_category_view u cat page db today =
      [Block.header ("📂 " ++ cat ++ " Events"),
       Block.actions [⟨"« 홈페이지로", "", "nav_home"⟩],
       Block.divider] ++
      (((get_sorted_events "" (some cat) db today).1.drop (20 * page)).take 20).flatMap
        (fun e => build_event_block e
          (lookupSub (get_sorted_events "" (some cat) db today).2 e.id)
          (is_user_admin u db) ++ [Block.divider]) ++
      (if ((if 0 < page then [prevButton cat page] else []) ++
           (if page + 1 < ((get_sorted_events "" (some cat) db today).1.length + 19) / 20
            then [nextButton cat page] else [])).isEmpty then []
       else [Block.actions
         ((if 0 < page then [prevButton cat page] else []) ++
          (if page + 1 < ((get_sorted_events "" (some cat) db today).1.length + 19) / 20
           then [nextButton cat page] else []))]) := rfl

/-- `sectionTexts` distributes over append. -/
theorem sectionTexts_append (l1 l2 : List Block) :
    sectionTexts (l1 ++ l2) = sectionTexts l1 ++ sectionTexts l2 :=
  List.filterMap_append ..

/-- `navButtons` distributes over append. -/
theorem navButtons_append (l1 l2 : List Block) :
    navButtons (l1 ++ l2) = navButtons l1 ++ navButtons l2 :=
  List.flatMap_append ..

/-- The event panels of a slice contribute exactly the slice's texts. -/
theorem sectionTexts_flatMap_event (l : List Event)
    (fsub : Event → Option Subscription) (adm : Bool) :
    sectionTexts (l.flatMap fun e => build_event_block e (fsub e) adm ++ [Block.divider]) =
      l.map eventText := by
  induction l with
  | nil => rfl
  | cons a t ih =>
    rw [List.flatMap_cons, sectionTexts_append, sectionTexts_event_block, ih]
    rfl

/-- The event panels of a slice contribute no pagination buttons. -/
theorem navButtons_flatMap_event (l : List Event)
    (fsub : Event → Option Subscription) (adm : Bool) :
    navButtons (l.flatMap fun e => build_event_block e (fsub e) adm ++ [Block.divider]) =
      [] := by
  induction l with
  | nil => rfl
  | cons a t ih =>
    rw [List.flatMap_cons, navButtons_append, navButtons_event_block, ih]
    rfl

/-- The event panels of a slice contribute no pagination actions block. -/
theorem filter_isPageNav_flatMap_event (l : List Event)
    (fsub : Event → Option Subscription) (adm : Bool) :
    (l.flatMap fun e => build_event_block e (fsub e) adm ++ [Block.divider]).filter
      isPageNav = [] := by
  induction l with
  | nil => rfl
  | cons a t ih =>
    rw [List.flatMap_cons, List.filter_append, filter_isPageNav_event_block, ih]
    rfl

/-- Claim C3: the category detail view renders exactly the events of the slice
`[20k, 20k+20)` of the sorted event list (their panels are the view's only
section blocks, in order); a page at or beyond `total_pages` yields an empty
slice, with the "previous" button present exactly when the page is positive
and no "next" button; and when neither button would be enabled the whole
pagination control is omitted. -/
theorem category_view_pagination (u cat : String) (page : Nat) (db : DB) (today : Int) :
    sectionTexts (get_category_view u cat page db today) =
      (((get_sorted_events "" (some cat) db today).1.drop (20 * page)).take 20).map
        eventText ∧
    (((get_sorted_events "" (some cat) db today).1.length + 19) / 20 ≤ page →
      ((get_sorted_events "" (some cat) db today).1.drop (20 * page)).take 20 = [] ∧
      navButtons (get_category_view u cat page db today) =
        (if 0 < page then ["nav_prev_page"] else [])) ∧
    (page = 0 ∧ ((get_sorted_events "" (some cat) db today).1.length + 19) / 20 ≤ 1 →
      (get_category_view u cat page db today).filter isPageNav = []) := by
  refine ⟨?_, ?_, ?_⟩
  · rw [category_view_eq, sectionTexts_append, sectionTexts_append,
      sectionTexts_flatMap_event]
    have hnav : ∀ (c : Prop) [Decidable c] (bs : List Button),
        sectionTexts (if c then [] else [Block.actions bs]) = [] := by
      intro c _ bs
      split <;> rfl
    rw [hnav]
    simp [sectionTexts]
  · intro htp
    have hle : (get_sorted_events "" (some cat) db today).1.length ≤ 20 * page := by
      omega
    have hslice :
        ((get_sorted_events "" (some cat) db today).1.drop (20 * page)).take 20 = [] := by
      rw [List.drop_eq_nil_of_le hle]
      rfl
    refine ⟨hslice, ?_⟩
    rw [category_view_eq, navButtons_append, navButtons_append, hslice]
    have hnext : ¬ (page + 1 < ((get_sorted_events "" (some cat) db today).1.length + 19) / 20) := by
      omega
    rw [if_neg hnext]
    by_cases hp : 0 < page
    · rw [if_pos hp, if_pos hp]
      rfl
    · rw [if_neg hp, if_neg hp]
      rfl
  · rintro ⟨hp0, ht1⟩
    subst hp0
    rw [category_view_eq, List.filter_append, List.filter_append,
      filter_isPageNav_flatMap_event]
    have hnext : ¬ (0 + 1 < ((get_sorted_events "" (some cat) db today).1.length + 19) / 20) := by
      omega
    rw [if_neg (by omega : ¬ (0 : Nat) < 0), if_neg hnext]
    rfl

/-- Witness for C3 at a concrete input: page 5 of the single-page "SAT"
category of `dbSmall` yields an empty slice and only a "previous" button. -/
theorem category_view_pagination_witness :
    ((get_sorted_events "" (some "SAT") dbSmall 0).1.drop (20 * 5)).take 20 = [] ∧
    navButtons (get_category_view "u" "SAT" 5 dbSmall 0) =
      (if 0 < 5 then ["nav_prev_page"] else []) :=
  (category_view_pagination "u" "SAT" 5 dbSmall 0).2.1 (by decide)

/-- When no subscription row has the empty channel id (the dashboard and
category views query with viewer `''`), the join finds no subscription and the
returned map is empty. -/
theorem sorted_events_snd_nil (cat : Option String) (db : DB) (today : Int)
    (hch : ∀ s ∈ db.subs, s.channel_id ≠ "") :
    (get_sorted_events "" cat db today).2 = [] := by
  unfold get_sorted_events
  simp only []
  rw [List.filterMap_eq_nil_iff]
  intro r hr
  have hr2 : r ∈ joinedRows "" cat db today :=
    (List.perm_insertionSort rowLe _).subset hr
  simp only [joinedRows, List.mem_map] at hr2
  obtain ⟨e, _, rfl⟩ := hr2
  have hnone : findSub "" e.id db = none := by
    rw [findSub, List.find?_eq_none]
    intro s hs
    simp [hch s hs]
  simp [hnone]

/-- Length bound for `flatMap` under a uniform per-element bound. -/
theorem flatMap_length_le {α β : Type} (l : List α) (f : α → List β) (k : Nat)
    (h : ∀ a ∈ l, (f a).length ≤ k) : (l.flatMap f).length ≤ l.length * k := by
  induction l with
  | nil => simp
  | cons a t ih =>
    rw [List.flatMap_cons, List.length_append, List.length_cons]
    have h1 := h a (by simp)
    have h2 := ih (fun x hx => h x (by simp [hx]))
    calc (f a).length + (t.flatMap f).length ≤ k + t.length * k := by omega
    _ = (t.length + 1) * k := by ring

/-- With at least one item budgeted per category and no empty-channel
subscription rows (so every event panel is a single block), a category group
stays within its header + events + view-all budget. -/
theorem category_blocks_length_le (cat : String) (adm : Bool) (items : Nat)
    (db : DB) (today : Int) (hit : 1 ≤ items)
    (hch : ∀ s ∈ db.subs, s.channel_id ≠ "") :
    (category_blocks cat adm items db today).length ≤ 2 + items := by
  unfold category_blocks
  simp only []
  rw [sorted_events_snd_nil (some cat) db today hch]
  by_cases hd : ((get_sorted_events "" (some cat) db today).1.take items).isEmpty
  · have hevs : (get_sorted_events "" (some cat) db today).1 = [] := by
      rcases List.take_eq_nil_iff.mp (List.isEmpty_iff.mp hd) with h | h
      · omega
      · exact h
    rw [if_pos hd, hevs]
    simp
  · rw [if_neg hd]
    have hmid : (((get_sorted_events "" (some cat) db today).1.take items).flatMap
        fun e => build_event_block e (lookupSub [] e.id) adm).length ≤ items := by
      have h1 := flatMap_length_le ((get_sorted_events "" (some cat) db today).1.take items)
        (fun e => build_event_block e (lookupSub [] e.id) adm) 1
        (fun e _ => by cases adm <;> rfl)
      have h2 : ((get_sorted_events "" (some cat) db today).1.take items).length ≤ items :=
        List.length_take_le ..
      omega
    have htail : (if ((get_sorted_events "" (some cat) db today).1.take items).length <
        (get_sorted_events "" (some cat) db today).1.length then
        [Block.actions [⟨"모든 " ++ cat ++ " 보기 (" ++
          toString (get_sorted_events "" (some cat) db today).1.length ++ ")",
          cat, "nav_view_category"⟩]] else ([] : List Block)).length ≤ 1 := by
      split <;> simp
    simp only [List.length_append, List.length_cons, List.length_nil]
    omega

/-- The fixed dashboard chrome is 3 blocks, or 6 for operators. -/
theorem dashboardBase_length (adm : Bool) :
    (dashboardBase adm).length = if adm then 6 else 3 := by cases adm <;> rfl

/-- The dashboard with at least one category, as chrome plus category groups. -/
theorem get_dashboard_view_eq (u : String) (db : DB) (today : Int)
    (hC : ¬ db.event_types.length = 0) :
    get_dashboard_view u db today =
      dashboardBase (is_user_admin u db) ++
        db.event_types.flatMap (fun cat => category_blocks cat (is_user_admin u db)
          (items_per_cat (100 - (dashboardBase (is_user_admin u db)).length)
            db.event_types.length).toNat db today) := by
  unfold get_dashboard_view
  simp only []
  rw [if_neg hC]

/-- Claim C1, amended: `items_per_cat` is the clamp of
`floor((remaining - 2*C)/C)` into `[0, 10]`, so it is always in `[0, 10]` even
on a negative budget; and the 100-block ceiling holds whenever at least one
item per category is budgeted and no subscription row carries the empty
channel id (each event panel then renders as a single block).  (Without those
side conditions the ceiling fails: see the counterexample, where 33 categories
clamp the budget to 0 yet render 3 blocks each.) -/
theorem dashboard_budget (u : String) (db : DB) (today : Int) :
    (0 ≤ items_per_cat (100 - (dashboardBase (is_user_admin u db)).length)
        db.event_types.length ∧
     items_per_cat (100 - (dashboardBase (is_user_admin u db)).length)
        db.event_types.length ≤ 10) ∧
    (1 ≤ items_per_cat (100 - (dashboardBase (is_user_admin u db)).length)
        db.event_types.length →
     (∀ s ∈ db.subs, s.channel_id ≠ "") →
     (get_dashboard_view u db today).length ≤ 100) := by
  constructor
  · constructor
    · exact le_max_right _ _
    · exact max_le (min_le_right _ _) (by norm_num)
  · intro hit hch
    have hC0 : ¬ db.event_types.length = 0 := by
      intro h0
      rw [items_per_cat, h0] at hit
      norm_num [Int.fdiv_zero] at hit
    have hCpos : (0 : Int) < db.event_types.length := by
      exact_mod_cast Nat.pos_of_ne_zero hC0
    rw [get_dashboard_view_eq u db today hC0, List.length_append]
    have hi1 : (1 : Int) ≤ items_per_cat
        (100 - (dashboardBase (is_user_admin u db)).length) db.event_types.length := hit
    have hitN : 1 ≤ (items_per_cat (100 - (dashboardBase (is_user_admin u db)).length)
        db.event_types.length).toNat := by omega
    have hflat := flatMap_length_le db.event_types
      (fun cat => category_blocks cat (is_user_admin u db)
        (items_per_cat (100 - (dashboardBase (is_user_admin u db)).length)
          db.event_types.length).toNat db today)
      (2 + (items_per_cat (100 - (dashboardBase (is_user_admin u db)).length)
          db.event_types.length).toNat)
      (fun cat _ => category_blocks_length_le cat _ _ db today hitN hch)
    -- the budget arithmetic, over ℤ
    have hq : (db.event_types.length : Int) *
        ((100 - ((dashboardBase (is_user_admin u db)).length : Int) -
          (db.event_types.length : Int) * 2).fdiv (db.event_types.length : Int)) ≤
        100 - ((dashboardBase (is_user_admin u db)).length : Int) -
          (db.event_types.length : Int) * 2 := by
      have hmod := Int.fmod_add_fdiv
        (100 - ((dashboardBase (is_user_admin u db)).length : Int) -
          (db.event_types.length : Int) * 2) (db.event_types.length : Int)
      have hmnn := Int.fmod_nonneg'
        (100 - ((dashboardBase (is_user_admin u db)).length : Int) -
          (db.event_types.length : Int) * 2) hCpos
      linarith
    have hif : items_per_cat (100 - (dashboardBase (is_user_admin u db)).length)
          db.event_types.length ≤
        (100 - ((dashboardBase (is_user_admin u db)).length : Int) -
          (db.event_types.length : Int) * 2).fdiv (db.event_types.length : Int) := by
      rw [items_per_cat] at hit ⊢
      omega
    have hCi : (db.event_types.length : Int) *
        (items_per_cat (100 - (dashboardBase (is_user_admin u db)).length)
          db.event_types.length) ≤
        100 - ((dashboardBase (is_user_admin u db)).length : Int) -
          (db.event_types.length : Int) * 2 := by
      calc (db.event_types.length : Int) * _ ≤ (db.event_types.length : Int) *
          ((100 - ((dashboardBase (is_user_admin u db)).length : Int) -
            (db.event_types.length : Int) * 2).fdiv (db.event_types.length : Int)) :=
            mul_le_mul_of_nonneg_left hif (le_of_lt hCpos)
      _ ≤ _ := hq
    have hInt : ((dashboardBase (is_user_admin u db)).length : Int) +
        (db.event_types.length : Int) *
          (2 + ((items_per_cat (100 - (dashboardBase (is_user_admin u db)).length)
            db.event_types.length).toNat : Int)) ≤ 100 := by
      have htn : ((items_per_cat (100 - (dashboardBase (is_user_admin u db)).length)
          db.event_types.length).toNat : Int) =
          items_per_cat (100 - (dashboardBase (is_user_admin u db)).length)
            db.event_types.length := by omega
      rw [htn]
      nlinarith [hCi]
    have hNat : (dashboardBase (is_user_admin u db)).length +
        db.event_types.length *
          (2 + (items_per_cat (100 - (dashboardBase (is_user_admin u db)).length)
            db.event_types.length).toNat) ≤ 100 := by
      exact_mod_cast hInt
    omega

/-- Witness for C1's amended claim: the single-category store `dbSmall`
budgets 10 items per category and stays within 100 blocks. -/
theorem dashboard_budget_witness :
    (get_dashboard_view "u" dbSmall 0).length ≤ 100 :=
  (dashboard_budget "u" dbSmall 0).2 (by decide) (by decide)

end ReminderApp
